import Mathlib

/-!
Verification of the MSCOCO dataset-joining utility
(`nightly_downsample/data_sample_mscoco.py`).

The development shallowly embeds the `MSCOCODataset` class and the
`data_subsample` helper.  External collaborators are modelled by their
contracts:

* `DirDataset` (the base image-listing dataset) stores one record per image
  file, each record a mapping with an `image` path; integer access returns
  the stored record at that position, string-key access returns the stored
  record the key designates (the raw lookup path).
* `COCO` (pycocotools) is an indexed annotation source: `getAnnIds` returns,
  in source order, the ids of the annotations matching an image id (and, for
  instances, the non-crowd filter), `loadAnns` resolves ids back to
  annotation records, and `annToMask` decodes one instance annotation to a
  binary mask.  Annotation ids are modelled as positions in the source list.
* `np.random.randint(n)` is modelled by an oracle stream `rng : Nat → Nat`,
  the draw at step `k` being `rng k % n`, which ranges over `[0, n)`.

Python dictionaries returned to callers are modelled by the `Sample`
structure whose optional fields stand for present-or-absent keys; a missing
key read raises `Err.keyError`.  The unbounded `while` loop of
`__getitem__` is embedded with explicit fuel: the result `Option` is `none`
when the loop is still running after the given number of iterations, so
non-termination statements quantify over all fuel values.
-/

/-- Bounding box tuple as built by `_populate_instance_data`:
`tuple(annotation['bbox'] + [annotation['category_id']])`, that is
`(x, y, w, h, category_id)`. -/
abbrev BBoxT := Int × Int × Int × Int × Int

/-- Binary mask produced by `COCO.annToMask` (a 2-d 0/1 array). -/
abbrev Mask := List (List Nat)

/-- A record handed to callers: the Python dict with keys `image`,
`image_id`, `bbox`, `mask`, `caption`.  An `Option` field is `none` exactly
when the corresponding key is absent from the dict. -/
structure Sample where
  image : String
  image_id : Option Int
  bbox : Option (List BBoxT)
  mask : Option (List Mask)
  caption : Option (List String)
deriving DecidableEq

/-- One COCO instance annotation record: image id, crowd flag, the four
bbox numbers and the category id. -/
structure InstAnn where
  image_id : Int
  iscrowd : Bool
  x : Int
  y : Int
  w : Int
  h : Int
  category_id : Int
deriving DecidableEq

/-- One COCO caption annotation record. -/
structure CapAnn where
  image_id : Int
  caption : String
deriving DecidableEq

/-- Positions (used as annotation ids) of the elements of a list satisfying
a predicate, counting from `k`, in list order. -/
def idxWhere {α : Type} (p : α → Bool) : List α → Nat → List Nat
  | [], _ => []
  | a :: rest, k => if p a then k :: idxWhere p rest (k + 1) else idxWhere p rest (k + 1)

/-- The instance-annotation index (`COCO(annotation_file)`): the annotation
records in source order, plus the mask decoder `annToMask`. -/
structure COCOInstances where
  anns : List InstAnn
  toMask : InstAnn → Mask

/-- Model of `COCO.getAnnIds(imgIds=image_id, iscrowd=False)`: ids of the
non-crowd instance annotations of the image, in source order. -/
def COCOInstances.getAnnIds (c : COCOInstances) (iid : Int) : List Nat :=
  idxWhere (fun a => a.image_id == iid && !a.iscrowd) c.anns 0

/-- Model of `COCO.loadAnns`: resolve annotation ids to records. -/
def COCOInstances.loadAnns (c : COCOInstances) (ids : List Nat) : List InstAnn :=
  ids.filterMap (fun i => c.anns.get? i)

/-- Model of `COCO.annToMask`. -/
def COCOInstances.annToMask (c : COCOInstances) (a : InstAnn) : Mask :=
  c.toMask a

/-- The non-crowd instance annotations of an image, in source order. -/
def COCOInstances.nonCrowd (c : COCOInstances) (iid : Int) : List InstAnn :=
  c.anns.filter (fun a => a.image_id == iid && !a.iscrowd)

/-- The caption-annotation index (`COCO(caption_file)`). -/
structure COCOCaptions where
  anns : List CapAnn

/-- Model of `COCO.getAnnIds(imgIds=image_id)` on the caption index. -/
def COCOCaptions.getAnnIds (c : COCOCaptions) (iid : Int) : List Nat :=
  idxWhere (fun a => a.image_id == iid) c.anns 0

/-- Model of `COCO.loadAnns` on the caption index. -/
def COCOCaptions.loadAnns (c : COCOCaptions) (ids : List Nat) : List CapAnn :=
  ids.filterMap (fun i => c.anns.get? i)

/-- The caption strings recorded for an image, in source order. -/
def capsFor (c : COCOCaptions) (iid : Int) : List String :=
  (c.anns.filter (fun a => a.image_id == iid)).map (fun a => a.caption)

/-- Model of `os.path.basename` on the character list of a path: the suffix
after the last `/`. -/
def basenameChars (cs : List Char) : List Char :=
  (cs.reverse.takeWhile (fun c => c ≠ '/')).reverse

/-- Stem part of `os.path.splitext` on a basename: cut at the last dot,
except when every character before that dot is itself a dot (Python keeps
leading-dot names such as `.bashrc` whole). -/
def stemChars (name : List Char) : List Char :=
  let revTail := name.reverse.takeWhile (fun c => c ≠ '.')
  if revTail.length = name.length then name
  else
    let pre := name.take (name.length - revTail.length - 1)
    if pre.any (fun c => c ≠ '.') then pre else name

/-- Strip leading and trailing whitespace, as Python `int()` does before
parsing. -/
def trimChars (cs : List Char) : List Char :=
  ((cs.dropWhile Char.isWhitespace).reverse.dropWhile Char.isWhitespace).reverse

/-- Value of a non-empty all-digit character list, `none` otherwise. -/
def digitsToNat (cs : List Char) : Option Nat :=
  if cs.isEmpty then none
  else if cs.all Char.isDigit then
    some (cs.foldl (fun a c => a * 10 + (c.toNat - 48)) 0)
  else none

/-- Model of Python `int(s)` on a decimal string: optional surrounding
whitespace, optional sign, then digits; `none` models the `ValueError`. -/
def pyInt (cs : List Char) : Option Int :=
  match trimChars cs with
  | '-' :: rest => (digitsToNat rest).map (fun n => -(n : Int))
  | '+' :: rest => (digitsToNat rest).map (fun n => (n : Int))
  | l => (digitsToNat l).map (fun n => (n : Int))

/-- Model of `int(os.path.splitext(os.path.basename(image))[0])` from
`_get_single_item`; `none` models the `ValueError` on a non-integer stem. -/
def parseImageId (path : String) : Option Int :=
  pyInt (stemChars (basenameChars path.toList))

/-- Exceptions that sample access can raise. -/
inductive Err
  | indexError
  | keyError (field : String)
  | parseError
deriving DecidableEq

/-- Whether a returned record is an independently owned value (produced by
`deepcopy`) or the very object stored in the base dataset. -/
inductive Ownership
  | owned
  | aliased
deriving DecidableEq

/-- An access index: positional integer or string key. -/
inductive Idx
  | pos (i : Nat)
  | key (s : String)
deriving DecidableEq

/-- Errors that `MSCOCODataset.__init__` can raise: the `assert` on the
flag combination, or a fatal annotation-source load error. -/
inductive InitError
  | configError (msg : String)
  | loadError (msg : String)
deriving DecidableEq

/-- The annotation sources that construction can open. -/
inductive SourceTag
  | instancesSrc
  | captionsSrc
deriving DecidableEq, BEq

/-- The `MSCOCODataset` object: the base `DirDataset` storage (one record
per image file plus the external string-key lookup), the two configuration
flags, and the annotation indices.  `captions = none` both encodes
`include_captions = False` and makes `if self.captions:` false. -/
structure MSCOCODataset where
  records : List Sample
  keyIndex : List (String × Nat)
  include_bboxes : Bool
  include_masks : Bool
  instances : COCOInstances
  captions : Option COCOCaptions

/-- Model of `len(self)`: the number of records of the base dataset. -/
def MSCOCODataset.len (ds : MSCOCODataset) : Nat :=
  ds.records.length

/-- The `for annotation in annotations:` loop of `_populate_instance_data`:
append the bbox tuple of each annotation, and its mask when masks are
included. -/
def instLoop (c : COCOInstances) (include_masks : Bool) :
    List InstAnn → Sample → Sample
  | [], d => d
  | a :: rest, d =>
    let d1 : Sample := { d with bbox := some (d.bbox.getD [] ++ [(a.x, a.y, a.w, a.h, a.category_id)]) }
    let d2 : Sample :=
      if include_masks then
        { d1 with mask := some (d1.mask.getD [] ++ [c.annToMask a]) }
      else d1
    instLoop c include_masks rest d2

/-- Bbox tuple of one instance annotation. -/
def annTuple (a : InstAnn) : BBoxT :=
  (a.x, a.y, a.w, a.h, a.category_id)

/-- Model of `MSCOCODataset._populate_instance_data`. -/
def populateInstanceData (c : COCOInstances) (include_masks : Bool)
    (data : Sample) (image_id : Int) : Sample :=
  let data1 : Sample := { data with bbox := some [] }
  let data2 : Sample := if include_masks then { data1 with mask := some [] } else data1
  let annotation_ids := c.getAnnIds image_id
  if annotation_ids.isEmpty then data2
  else instLoop c include_masks (c.loadAnns annotation_ids) data2

/-- The `for annotation in annotations:` loop of `_populate_caption_data`. -/
def capLoop : List CapAnn → Sample → Sample
  | [], d => d
  | a :: rest, d => capLoop rest { d with caption := some (d.caption.getD [] ++ [a.caption]) }

/-- Model of `MSCOCODataset._populate_caption_data`. -/
def populateCaptionData (c : COCOCaptions) (data : Sample) (image_id : Int) : Sample :=
  let data1 : Sample := { data with caption := some [] }
  let annotation_ids := c.getAnnIds image_id
  if annotation_ids.isEmpty then data1
  else capLoop (c.loadAnns annotation_ids) data1

/-- Model of `MSCOCODataset._get_single_item`.  A string key returns the
stored base record itself (no `deepcopy`, hence `aliased`); an integer
index deep-copies the stored record (hence `owned`), parses `image_id`
from the filename stem and merges the requested annotation data. -/
def MSCOCODataset.getSingleItem (ds : MSCOCODataset) (index : Idx) :
    Except Err (Sample × Ownership) :=
  match index with
  | .key s =>
    match List.lookup s ds.keyIndex with
    | none => .error .indexError
    | some j =>
      match ds.records.get? j with
      | none => .error .indexError
      | some r => .ok (r, .aliased)
  | .pos i =>
    match ds.records.get? i with
    | none => .error .indexError
    | some r =>
      match parseImageId r.image with
      | none => .error .parseError
      | some image_id =>
        let response : Sample := { r with image_id := some image_id }
        let response :=
          if ds.include_bboxes then
            populateInstanceData ds.instances ds.include_masks response image_id
          else response
        let response :=
          match ds.captions with
          | some caps => populateCaptionData caps response image_id
          | none => response
        .ok (response, .owned)

/-- One `if ... and not response[field]` test of `__getitem__`: reading the
field of a record that lacks it raises `KeyError`; otherwise the kind is
satisfied when the list is non-empty (or not requested at all). -/
def checkKind {α : Type} (want : Bool) (field : String) (v : Option (List α)) :
    Except Err Bool :=
  if want then
    match v with
    | none => .error (.keyError field)
    | some l => .ok (!l.isEmpty)
  else .ok true

/-- The three completeness tests of `__getitem__`, in program order
(bbox, then mask, then caption), combined into `has_data`. -/
def completenessCheck (ds : MSCOCODataset) (r : Sample) : Except Err Bool :=
  match checkKind ds.include_bboxes "bbox" r.bbox with
  | .error e => .error e
  | .ok has_box =>
    match checkKind ds.include_masks "mask" r.mask with
    | .error e => .error e
    | .ok has_mask =>
      match checkKind ds.captions.isSome "caption" r.caption with
      | .error e => .error e
      | .ok has_caption => .ok (has_box && has_mask && has_caption)

/-- The `while not has_data:` loop of `__getitem__`, with explicit fuel.
`k` counts the random draws consumed so far; an incomplete sample restarts
the loop at the freshly drawn index `rng k % len`.  Result `none` means the
loop is still running after `fuel` iterations. -/
def MSCOCODataset.getitemLoop (ds : MSCOCODataset) (rng : Nat → Nat) :
    Nat → Nat → Idx → Except Err (Option (Sample × Ownership))
  | 0, _, _ => .ok none
  | fuel + 1, k, index =>
    match ds.getSingleItem index with
    | .error e => .error e
    | .ok (response, own) =>
      match completenessCheck ds response with
      | .error e => .error e
      | .ok has_data =>
        if has_data then .ok (some (response, own))
        else ds.getitemLoop rng fuel (k + 1) (.pos (rng k % ds.len))

/-- Model of `MSCOCODataset.__getitem__`. -/
def MSCOCODataset.getitem (ds : MSCOCODataset) (rng : Nat → Nat) (fuel : Nat)
    (index : Idx) : Except Err (Option (Sample × Ownership)) :=
  ds.getitemLoop rng fuel 0 index

/-- Model of `MSCOCODataset.__init__`.  The base `DirDataset` storage is
built from the image files; `include_masks` without `include_bboxes` trips
the `assert`; then the instance source is opened, and the caption source
only when `include_captions` is set.  The returned log lists the annotation
sources opened, in order; a failing open aborts construction. -/
def MSCOCODataset.init (image_files : List String) (keyIdx : List (String × Nat))
    (instFile : Except String COCOInstances) (capFile : Except String COCOCaptions)
    (include_bboxes include_masks include_captions : Bool) :
    Except InitError (MSCOCODataset × List SourceTag) :=
  let records : List Sample := image_files.map (fun p => ⟨p, none, none, none, none⟩)
  if include_masks && !include_bboxes then
    .error (.configError "must include bboxes with mask data")
  else
    match instFile with
    | .error e => .error (.loadError e)
    | .ok inst =>
      if include_captions then
        match capFile with
        | .error e => .error (.loadError e)
        | .ok caps =>
          .ok (⟨records, keyIdx, include_bboxes, include_masks, inst, some caps⟩,
               [.instancesSrc, .captionsSrc])
      else
        .ok (⟨records, keyIdx, include_bboxes, include_masks, inst, none⟩,
             [.instancesSrc])

/-- The walk of `data_subsample`: keep a file while `img_count` is below
`sample_num`, otherwise `os.remove` it.  Returns (kept, removed). -/
def subsampleLoop (sample_num : Nat) : List String → Nat → List String × List String
  | [], _ => ([], [])
  | f :: rest, img_count =>
    if img_count < sample_num then
      let kr := subsampleLoop sample_num rest (img_count + 1)
      (f :: kr.1, kr.2)
    else
      let kr := subsampleLoop sample_num rest img_count
      (kr.1, f :: kr.2)

/-- Files remaining in the split directory after `data_subsample`, the
directory contents given in traversal order. -/
def data_subsample (files : List String) (sample_num : Nat) : List String :=
  (subsampleLoop sample_num files 0).1

/-- Files deleted by `data_subsample`. -/
def removedFiles (files : List String) (sample_num : Nat) : List String :=
  (subsampleLoop sample_num files 0).2

/-- Completeness of a sample with respect to the configuration: every
requested annotation kind carries a non-empty list. -/
def completeFor (ds : MSCOCODataset) (s : Sample) : Prop :=
  (ds.include_bboxes = true → ∃ l, s.bbox = some l ∧ l ≠ []) ∧
  (ds.include_masks = true → ∃ l, s.mask = some l ∧ l ≠ []) ∧
  (ds.captions.isSome = true → ∃ l, s.caption = some l ∧ l ≠ [])

/-- Position `j` yields a sample that the completeness check rejects. -/
def incompleteFetch (ds : MSCOCODataset) (j : Nat) : Prop :=
  ∃ r own, ds.getSingleItem (.pos j) = .ok (r, own) ∧
    completenessCheck ds r = .ok false

/-! Concrete data used by witnesses and counterexamples. -/

/-- An instance source with no annotations at all. -/
def wInstEmpty : COCOInstances := ⟨[], fun _ => []⟩

/-- An instance source holding one non-crowd annotation for image id 1. -/
def wInstOne : COCOInstances := ⟨[⟨1, false, 10, 20, 30, 40, 7⟩], fun _ => [[1]]⟩

/-- An empty caption source. -/
def wCapsEmpty : COCOCaptions := ⟨[]⟩

/-- Base record of image file `000001.jpg`. -/
def baseRec1 : Sample := ⟨"000001.jpg", none, none, none, none⟩

/-- Base record of image file `000002.jpg`. -/
def baseRec2 : Sample := ⟨"000002.jpg", none, none, none, none⟩

/-- Base record of an image file with a non-integer stem. -/
def baseRecBad : Sample := ⟨"abc.jpg", none, none, none, none⟩

/-- A bbox-requesting dataset whose only image has one annotation. -/
def dsComplete : MSCOCODataset := ⟨[baseRec1], [("k", 0)], true, false, wInstOne, none⟩

/-- A bbox-requesting dataset whose only image has no annotations. -/
def dsIncomplete : MSCOCODataset := ⟨[baseRec2], [("k", 0)], true, false, wInstEmpty, none⟩

/-- A dataset requesting no annotation kinds at all. -/
def dsPlain : MSCOCODataset := ⟨[baseRec2], [("k", 0)], false, false, wInstEmpty, none⟩

/-- A dataset whose only image file has a non-integer stem. -/
def dsBad : MSCOCODataset := ⟨[baseRecBad], [], true, false, wInstEmpty, none⟩

/-- The complete sample served by `dsComplete` at position 0. -/
def sComplete : Sample := ⟨"000001.jpg", some 1, some [(10, 20, 30, 40, 7)], none, none⟩

/-- A fixed random oracle. -/
def wrng : Nat → Nat := fun _ => 0

/-- A split directory content of three files. -/
def w5files : List String := ["a.jpg", "b.jpg", "c.jpg"]

/-- The dataset constructed over `w5files` subsampled to 2 files. -/
def ds5w : MSCOCODataset :=
  ⟨[⟨"a.jpg", none, none, none, none⟩, ⟨"b.jpg", none, none, none, none⟩],
   [], true, false, wInstEmpty, none⟩

/-- The dataset constructed in the C6 counterexample. -/
def ds6w : MSCOCODataset :=
  ⟨[⟨"000001.jpg", none, none, none, none⟩], [], true, false, wInstEmpty, none⟩

/-! Helper lemmas about the annotation-id round trip. -/

/-- Shifting the start position of `idxWhere` shifts every returned id. -/
theorem idxWhere_succ {α : Type} (p : α → Bool) (l : List α) :
    ∀ k, idxWhere p l (k + 1) = (idxWhere p l k).map (fun i => i + 1) := by
  induction l with
  | nil => intro k; simp [idxWhere]
  | cons a rest ih =>
    intro k
    by_cases hpa : p a = true
    · simp [idxWhere, hpa, ih (k + 1)]
    · simp [idxWhere, hpa, ih (k + 1)]

/-- Resolving the ids returned by `idxWhere` against the same list recovers
exactly the filtered sublist, in order. -/
theorem filterMap_get_idxWhere {α : Type} (p : α → Bool) (l : List α) :
    (idxWhere p l 0).filterMap (fun i => l.get? i) = l.filter p := by
  induction l with
  | nil => simp [idxWhere]
  | cons a rest ih =>
    have hmap : ((idxWhere p rest 0).map (fun i => i + 1)).filterMap
        (fun i => (a :: rest).get? i) =
        (idxWhere p rest 0).filterMap (fun i => rest.get? i) := by
      rw [List.filterMap_map]; rfl
    by_cases hpa : p a = true
    · simp only [idxWhere, hpa, if_true, List.filterMap_cons, idxWhere_succ p rest 0]
      simp only [List.get?_cons_zero, hmap, ih, List.filter_cons, hpa]
      simp
    · simp only [idxWhere, hpa, if_false, idxWhere_succ p rest 0, Bool.false_eq_true]
      simp only [hmap, ih, List.filter_cons, hpa, Bool.false_eq_true, if_false]

/-- `loadAnns` after `getAnnIds` is the non-crowd filter of the instance
source, in source order. -/
theorem loadAnns_getAnnIds (c : COCOInstances) (iid : Int) :
    c.loadAnns (c.getAnnIds iid) = c.nonCrowd iid :=
  filterMap_get_idxWhere _ c.anns

/-- `loadAnns` after `getAnnIds` on the caption source is the filter by
image id, in source order. -/
theorem caps_loadAnns_getAnnIds (c : COCOCaptions) (iid : Int) :
    c.loadAnns (c.getAnnIds iid) = c.anns.filter (fun a => a.image_id == iid) :=
  filterMap_get_idxWhere _ c.anns

/-- If `getAnnIds` returns nothing, the non-crowd filter is empty. -/
theorem nonCrowd_of_getAnnIds_nil (c : COCOInstances) (iid : Int)
    (h : c.getAnnIds iid = []) : c.nonCrowd iid = [] := by
  rw [← loadAnns_getAnnIds, h]; rfl

/-- If `getAnnIds` on the caption source returns nothing, the filter by
image id is empty. -/
theorem capsFilter_of_getAnnIds_nil (c : COCOCaptions) (iid : Int)
    (h : c.getAnnIds iid = []) : c.anns.filter (fun a => a.image_id == iid) = [] := by
  rw [← caps_loadAnns_getAnnIds, h]; rfl

/-! Field-level behaviour of the populate helpers. -/

/-- Behaviour of the instance-annotation loop: `image`, `image_id`,
`caption` are untouched; the bbox list accumulates the tuple of every
annotation; the mask list accumulates the decoded masks exactly when masks
are included. -/
theorem instLoop_fields (c : COCOInstances) (m : Bool) :
    ∀ (anns : List InstAnn) (d : Sample) (lb : List BBoxT), d.bbox = some lb →
      (instLoop c m anns d).image = d.image ∧
      (instLoop c m anns d).image_id = d.image_id ∧
      (instLoop c m anns d).caption = d.caption ∧
      (instLoop c m anns d).bbox = some (lb ++ anns.map annTuple) ∧
      (∀ lm, d.mask = some lm → m = true →
        (instLoop c m anns d).mask = some (lm ++ anns.map c.annToMask)) ∧
      (m = false → (instLoop c m anns d).mask = d.mask) := by
  intro anns
  induction anns with
  | nil =>
    intro d lb hb
    refine ⟨rfl, rfl, rfl, ?_, ?_, ?_⟩
    · simp [instLoop, hb]
    · intro lm hm _; simp [instLoop, hm]
    · intro _; rfl
  | cons a rest ih =>
    intro d lb hb
    cases m with
    | false =>
      have hd2 : instLoop c false (a :: rest) d =
          instLoop c false rest { d with bbox := some (lb ++ [annTuple a]) } := by
        simp [instLoop, hb, annTuple]
      obtain ⟨h1, h2, h3, h4, _h5, h6⟩ :=
        ih { d with bbox := some (lb ++ [annTuple a]) } (lb ++ [annTuple a]) rfl
      refine ⟨by rw [hd2]; exact h1, by rw [hd2]; exact h2, by rw [hd2]; exact h3, ?_, ?_, ?_⟩
      · rw [hd2, h4]; simp
      · intro lm _ hcontra; cases hcontra
      · intro _; rw [hd2]; exact h6 rfl
    | true =>
      have hd2 : instLoop c true (a :: rest) d =
          instLoop c true rest
            { d with bbox := some (lb ++ [annTuple a]),
                     mask := some (d.mask.getD [] ++ [c.annToMask a]) } := by
        simp [instLoop, hb, annTuple]
      obtain ⟨h1, h2, h3, h4, h5, _h6⟩ :=
        ih { d with bbox := some (lb ++ [annTuple a]),
                    mask := some (d.mask.getD [] ++ [c.annToMask a]) }
           (lb ++ [annTuple a]) rfl
      refine ⟨by rw [hd2]; exact h1, by rw [hd2]; exact h2, by rw [hd2]; exact h3, ?_, ?_, ?_⟩
      · rw [hd2, h4]; simp
      · intro lm hm _
        rw [hd2, h5 (d.mask.getD [] ++ [c.annToMask a]) rfl rfl]
        simp [hm]
      · intro hcontra; cases hcontra

/-- Behaviour of the caption loop: only `caption` changes, accumulating the
caption string of every annotation. -/
theorem capLoop_fields :
    ∀ (anns : List CapAnn) (d : Sample) (lc : List String), d.caption = some lc →
      (capLoop anns d).image = d.image ∧
      (capLoop anns d).image_id = d.image_id ∧
      (capLoop anns d).bbox = d.bbox ∧
      (capLoop anns d).mask = d.mask ∧
      (capLoop anns d).caption = some (lc ++ anns.map (fun a => a.caption)) := by
  intro anns
  induction anns with
  | nil =>
    intro d lc hc
    exact ⟨rfl, rfl, rfl, rfl, by simp [capLoop, hc]⟩
  | cons a rest ih =>
    intro d lc hc
    have hd2 : capLoop (a :: rest) d =
        capLoop rest { d with caption := some (lc ++ [a.caption]) } := by
      simp [capLoop, hc]
    obtain ⟨h1, h2, h3, h4, h5⟩ :=
      ih { d with caption := some (lc ++ [a.caption]) } (lc ++ [a.caption]) rfl
    refine ⟨by rw [hd2]; exact h1, by rw [hd2]; exact h2,
            by rw [hd2]; exact h3, by rw [hd2]; exact h4, ?_⟩
    rw [hd2, h5]; simp

/-- Behaviour of `_populate_instance_data`: `bbox` becomes exactly the
ordered tuple list of the non-crowd annotations of the image (empty when
none exist), `mask` becomes the parallel mask list exactly when masks are
included, and all other fields are untouched. -/
theorem populateInstanceData_spec (c : COCOInstances) (m : Bool)
    (d : Sample) (iid : Int) :
    (populateInstanceData c m d iid).image = d.image ∧
    (populateInstanceData c m d iid).image_id = d.image_id ∧
    (populateInstanceData c m d iid).caption = d.caption ∧
    (populateInstanceData c m d iid).bbox = some ((c.nonCrowd iid).map annTuple) ∧
    (m = true → (populateInstanceData c m d iid).mask =
      some ((c.nonCrowd iid).map c.annToMask)) ∧
    (m = false → (populateInstanceData c m d iid).mask = d.mask) := by
  unfold populateInstanceData
  by_cases hids : (c.getAnnIds iid).isEmpty = true
  · have hnil : c.getAnnIds iid = [] := by
      cases h : c.getAnnIds iid with
      | nil => rfl
      | cons x xs => rw [h] at hids; simp [List.isEmpty] at hids
    have hnc : c.nonCrowd iid = [] := nonCrowd_of_getAnnIds_nil c iid hnil
    cases m with
    | false => simp [hids, hnc]
    | true => simp [hids, hnc]
  · have hload : c.loadAnns (c.getAnnIds iid) = c.nonCrowd iid :=
      loadAnns_getAnnIds c iid
    cases m with
    | false =>
      simp only [hids, if_false, Bool.false_eq_true]
      obtain ⟨h1, h2, h3, h4, _h5, h6⟩ :=
        instLoop_fields c false (c.loadAnns (c.getAnnIds iid))
          { d with bbox := some [] } [] rfl
      refine ⟨h1, h2, h3, ?_, ?_, ?_⟩
      · rw [h4, hload]; simp
      · intro hcontra; cases hcontra
      · intro _; rw [h6 rfl]
    | true =>
      simp only [hids, Bool.false_eq_true, if_false, if_true]
      obtain ⟨h1, h2, h3, h4, h5, _h6⟩ :=
        instLoop_fields c true (c.loadAnns (c.getAnnIds iid))
          { d with bbox := some [], mask := some [] } [] rfl
      refine ⟨h1, h2, h3, ?_, ?_, ?_⟩
      · rw [h4, hload]; simp
      · intro _; rw [h5 [] rfl rfl, hload]; simp
      · intro hcontra; cases hcontra

/-- Behaviour of `_populate_caption_data`: `caption` becomes exactly the
ordered caption list of the image (empty when none exist); all other fields
are untouched. -/
theorem populateCaptionData_spec (c : COCOCaptions) (d : Sample) (iid : Int) :
    (populateCaptionData c d iid).image = d.image ∧
    (populateCaptionData c d iid).image_id = d.image_id ∧
    (populateCaptionData c d iid).bbox = d.bbox ∧
    (populateCaptionData c d iid).mask = d.mask ∧
    (populateCaptionData c d iid).caption = some (capsFor c iid) := by
  unfold populateCaptionData
  by_cases hids : (c.getAnnIds iid).isEmpty = true
  · have hnil : c.getAnnIds iid = [] := by
      cases h : c.getAnnIds iid with
      | nil => rfl
      | cons x xs => rw [h] at hids; simp [List.isEmpty] at hids
    have hcf : capsFor c iid = [] := by
      unfold capsFor; rw [capsFilter_of_getAnnIds_nil c iid hnil]; rfl
    simp [hids, hcf]
  · have hload : c.loadAnns (c.getAnnIds iid) = c.anns.filter (fun a => a.image_id == iid) :=
      caps_loadAnns_getAnnIds c iid
    simp only [hids, if_false, Bool.false_eq_true]
    obtain ⟨h1, h2, h3, h4, h5⟩ :=
      capLoop_fields (c.loadAnns (c.getAnnIds iid)) { d with caption := some [] } [] rfl
    refine ⟨h1, h2, h3, h4, ?_⟩
    rw [h5, hload]; simp [capsFor]

/-! Behaviour of `_get_single_item` and of the `__getitem__` loop. -/

/-- Integer-index access through `_get_single_item`, when the base record
exists and its filename stem parses: the result is an owned record whose
`image` is unchanged, whose `image_id` is the parsed stem, and whose
annotation fields are populated exactly per the configuration. -/
theorem getSingleItem_pos_spec (ds : MSCOCODataset) (i : Nat) (r : Sample) (iid : Int)
    (hr : ds.records.get? i = some r) (hp : parseImageId r.image = some iid) :
    ∃ s, ds.getSingleItem (.pos i) = .ok (s, .owned) ∧
      s.image = r.image ∧
      s.image_id = some iid ∧
      (ds.include_bboxes = true →
        s.bbox = some ((ds.instances.nonCrowd iid).map annTuple) ∧
        (ds.include_masks = true →
          s.mask = some ((ds.instances.nonCrowd iid).map ds.instances.annToMask)) ∧
        (ds.include_masks = false → s.mask = r.mask)) ∧
      (ds.include_bboxes = false → s.bbox = r.bbox ∧ s.mask = r.mask) ∧
      (∀ caps, ds.captions = some caps → s.caption = some (capsFor caps iid)) ∧
      (ds.captions = none → s.caption = r.caption) := by
  cases hb : ds.include_bboxes with
  | false =>
    cases hcap : ds.captions with
    | none =>
      refine ⟨{ r with image_id := some iid }, ?_, rfl, rfl, ?_, ?_, ?_, ?_⟩
      · unfold MSCOCODataset.getSingleItem
        simp only [hr, hp, hb, hcap, Bool.false_eq_true, if_false]
      · intro h; exact absurd h (by simp)
      · intro _; exact ⟨rfl, rfl⟩
      · intro caps h; exact absurd h (by simp)
      · intro _; rfl
    | some caps =>
      obtain ⟨q1, q2, q3, q4, q5⟩ :=
        populateCaptionData_spec caps { r with image_id := some iid } iid
      refine ⟨populateCaptionData caps { r with image_id := some iid } iid,
              ?_, q1, q2, ?_, ?_, ?_, ?_⟩
      · unfold MSCOCODataset.getSingleItem
        simp only [hr, hp, hb, hcap, Bool.false_eq_true, if_false]
      · intro h; exact absurd h (by simp)
      · intro _; exact ⟨q3, q4⟩
      · intro caps' h
        cases h
        exact q5
      · intro h; exact absurd h (by simp)
  | true =>
    obtain ⟨p1, p2, p3, p4, p5, p6⟩ :=
      populateInstanceData_spec ds.instances ds.include_masks
        { r with image_id := some iid } iid
    cases hcap : ds.captions with
    | none =>
      refine ⟨populateInstanceData ds.instances ds.include_masks
                { r with image_id := some iid } iid, ?_, p1, p2, ?_, ?_, ?_, ?_⟩
      · unfold MSCOCODataset.getSingleItem
        simp only [hr, hp, hb, hcap, if_true]
      · intro _; exact ⟨p4, p5, p6⟩
      · intro h; exact absurd h (by simp)
      · intro caps h; exact absurd h (by simp)
      · intro _; exact p3
    | some caps =>
      obtain ⟨q1, q2, q3, q4, q5⟩ :=
        populateCaptionData_spec caps
          (populateInstanceData ds.instances ds.include_masks
            { r with image_id := some iid } iid) iid
      refine ⟨populateCaptionData caps
                (populateInstanceData ds.instances ds.include_masks
                  { r with image_id := some iid } iid) iid,
              ?_, by rw [q1]; exact p1, by rw [q2]; exact p2, ?_, ?_, ?_, ?_⟩
      · unfold MSCOCODataset.getSingleItem
        simp only [hr, hp, hb, hcap, if_true]
      · intro _
        exact ⟨by rw [q3]; exact p4, fun hm => by rw [q4]; exact p5 hm,
               fun hm => by rw [q4]; exact p6 hm⟩
      · intro h; exact absurd h (by simp)
      · intro caps' h
        cases h
        exact q5
      · intro h; exact absurd h (by simp)

/-- Integer-index access raises the parse error exactly when the filename
stem of the stored record is not a valid integer. -/
theorem getSingleItem_pos_parse_fail (ds : MSCOCODataset) (i : Nat) (r : Sample)
    (hr : ds.records.get? i = some r) (hp : parseImageId r.image = none) :
    ds.getSingleItem (.pos i) = .error .parseError := by
  unfold MSCOCODataset.getSingleItem
  simp only [hr, hp]

/-- String-key access through `_get_single_item` returns the stored base
record itself, marked aliased, whenever the key resolves. -/
theorem getSingleItem_key_spec (ds : MSCOCODataset) (s : String) (j : Nat) (r : Sample)
    (hk : List.lookup s ds.keyIndex = some j) (hr : ds.records.get? j = some r) :
    ds.getSingleItem (.key s) = .ok (r, .aliased) := by
  unfold MSCOCODataset.getSingleItem
  simp only [hk, hr]

/-- Integer-index access on a missing base record raises the index
error. -/
theorem getSingleItem_pos_oob (ds : MSCOCODataset) (i : Nat)
    (hr : ds.records.get? i = none) :
    ds.getSingleItem (.pos i) = .error .indexError := by
  unfold MSCOCODataset.getSingleItem
  simp only [hr]

/-- String-key access with an unknown key raises the index error. -/
theorem getSingleItem_key_noKey (ds : MSCOCODataset) (s : String)
    (hk : List.lookup s ds.keyIndex = none) :
    ds.getSingleItem (.key s) = .error .indexError := by
  unfold MSCOCODataset.getSingleItem
  simp only [hk]

/-- String-key access whose key resolves out of range raises the index
error. -/
theorem getSingleItem_key_oob (ds : MSCOCODataset) (s : String) (j : Nat)
    (hk : List.lookup s ds.keyIndex = some j) (hr : ds.records.get? j = none) :
    ds.getSingleItem (.key s) = .error .indexError := by
  unfold MSCOCODataset.getSingleItem
  simp only [hk, hr]

/-- Inversion of a successful `checkKind`. -/
theorem checkKind_ok {α : Type} (want : Bool) (field : String)
    (v : Option (List α)) (b : Bool) (h : checkKind want field v = .ok b) :
    (want = true → ∃ l, v = some l ∧ b = !l.isEmpty) ∧ (want = false → b = true) := by
  cases want <;> cases v <;> simp_all [checkKind]

/-- A record that passes the completeness check with `has_data = true` is
complete for the configuration. -/
theorem completenessCheck_true_complete (ds : MSCOCODataset) (r : Sample)
    (h : completenessCheck ds r = .ok true) : completeFor ds r := by
  unfold completenessCheck at h
  cases hB : checkKind ds.include_bboxes "bbox" r.bbox with
  | error e => rw [hB] at h; cases h
  | ok hb =>
    rw [hB] at h
    cases hM : checkKind ds.include_masks "mask" r.mask with
    | error e => rw [hM] at h; cases h
    | ok hm =>
      rw [hM] at h
      cases hC : checkKind ds.captions.isSome "caption" r.caption with
      | error e => rw [hC] at h; cases h
      | ok hc =>
        rw [hC] at h
        injection h with hand
        simp only [Bool.and_eq_true] at hand
        obtain ⟨⟨hb1, hm1⟩, hc1⟩ := hand
        subst hb1; subst hm1; subst hc1
        obtain ⟨hB1, _⟩ := checkKind_ok _ _ _ _ hB
        obtain ⟨hM1, _⟩ := checkKind_ok _ _ _ _ hM
        obtain ⟨hC1, _⟩ := checkKind_ok _ _ _ _ hC
        refine ⟨?_, ?_, ?_⟩
        · intro hw
          obtain ⟨l, hl, hne⟩ := hB1 hw
          exact ⟨l, hl, by intro hnil; subst hnil; simp at hne⟩
        · intro hw
          obtain ⟨l, hl, hne⟩ := hM1 hw
          exact ⟨l, hl, by intro hnil; subst hnil; simp at hne⟩
        · intro hw
          obtain ⟨l, hl, hne⟩ := hC1 hw
          exact ⟨l, hl, by intro hnil; subst hnil; simp at hne⟩

/-- One-step unfolding of the `while not has_data:` loop. -/
theorem getitemLoop_succ (ds : MSCOCODataset) (rng : Nat → Nat)
    (fuel k : Nat) (index : Idx) :
    ds.getitemLoop rng (fuel + 1) k index =
      match ds.getSingleItem index with
      | .error e => .error e
      | .ok (response, own) =>
        match completenessCheck ds response with
        | .error e => .error e
        | .ok has_data =>
          if has_data then .ok (some (response, own))
          else ds.getitemLoop rng fuel (k + 1) (.pos (rng k % ds.len)) := rfl

/-- Any sample the `__getitem__` loop returns has passed the completeness
check, hence is complete for the configuration. -/
theorem getitemLoop_ok_complete (ds : MSCOCODataset) (rng : Nat → Nat) :
    ∀ (fuel k : Nat) (idx : Idx) (s : Sample) (own : Ownership),
      ds.getitemLoop rng fuel k idx = .ok (some (s, own)) → completeFor ds s := by
  intro fuel
  induction fuel with
  | zero =>
    intro k idx s own h
    exact absurd h (by simp [MSCOCODataset.getitemLoop])
  | succ n ih =>
    intro k idx s own h
    rw [getitemLoop_succ] at h
    cases hg : ds.getSingleItem idx with
    | error e => rw [hg] at h; exact absurd h (by simp)
    | ok pair =>
      obtain ⟨resp, own'⟩ := pair
      rw [hg] at h
      dsimp only at h
      cases hc : completenessCheck ds resp with
      | error e =>
        rw [hc] at h
        exact absurd h (by simp)
      | ok has_data =>
        rw [hc] at h
        cases has_data with
        | false =>
          simp only [Bool.false_eq_true, if_false] at h
          exact ih (k + 1) _ s own h
        | true =>
          simp only [if_true] at h
          have hs : resp = s := by
            cases h; rfl
          subst hs
          exact completenessCheck_true_complete ds resp hc

/-- When every valid index fetches successfully but incompletely, the loop
never returns: for any amount of fuel it is still running. -/
theorem getitemLoop_stuck (ds : MSCOCODataset) (rng : Nat → Nat)
    (h0 : 0 < ds.len) (hall : ∀ j, j < ds.len → incompleteFetch ds j) :
    ∀ (fuel k i : Nat), i < ds.len →
      ds.getitemLoop rng fuel k (.pos i) = .ok none := by
  intro fuel
  induction fuel with
  | zero => intro k i _; rfl
  | succ n ih =>
    intro k i hi
    obtain ⟨r, own, hg, hc⟩ := hall i hi
    rw [getitemLoop_succ, hg]
    dsimp only
    rw [hc]
    simp only [Bool.false_eq_true, if_false]
    exact ih (k + 1) (rng k % ds.len) (Nat.mod_lt _ h0)

/-! Behaviour of construction and of the subsampling pass. -/

/-- Inversion of a successful construction: the flag combination passed the
assert, the base storage is one record per image file, the instance source
was opened, and the caption source (with its log entry) exactly when
captions were requested. -/
theorem init_ok_spec (image_files : List String) (keyIdx : List (String × Nat))
    (instFile : Except String COCOInstances) (capFile : Except String COCOCaptions)
    (bb mk cp : Bool) (ds : MSCOCODataset) (log : List SourceTag)
    (h : MSCOCODataset.init image_files keyIdx instFile capFile bb mk cp = .ok (ds, log)) :
    (mk && !bb) = false ∧
    ds.records = image_files.map (fun p => ⟨p, none, none, none, none⟩) ∧
    ds.keyIndex = keyIdx ∧
    ds.include_bboxes = bb ∧
    ds.include_masks = mk ∧
    instFile = .ok ds.instances ∧
    ((cp = true ∧ (∃ caps, capFile = .ok caps ∧ ds.captions = some caps) ∧
        log = [.instancesSrc, .captionsSrc]) ∨
      (cp = false ∧ ds.captions = none ∧ log = [.instancesSrc])) := by
  unfold MSCOCODataset.init at h
  by_cases hmb : (mk && !bb) = true
  · rw [if_pos hmb] at h
    exact absurd h (by simp)
  · rw [if_neg hmb] at h
    cases instFile with
    | error e => exact absurd h (by simp)
    | ok inst =>
      dsimp only at h
      cases cp with
      | false =>
        simp only [Bool.false_eq_true, if_false] at h
        injection h with h'
        injection h' with h1 h2
        subst h2
        subst h1
        refine ⟨by simpa using hmb, rfl, rfl, rfl, rfl, rfl, ?_⟩
        exact Or.inr ⟨rfl, rfl, rfl⟩
      | true =>
        simp only [if_true] at h
        cases capFile with
        | error e => exact absurd h (by simp)
        | ok caps =>
          dsimp only at h
          injection h with h'
          injection h' with h1 h2
          subst h2
          subst h1
          refine ⟨by simpa using hmb, rfl, rfl, rfl, rfl, rfl, ?_⟩
          exact Or.inl ⟨rfl, ⟨caps, rfl, rfl⟩, rfl⟩

/-- The subsampling walk keeps the first `sample_num - img_count` files and
removes the rest. -/
theorem subsampleLoop_spec (n : Nat) :
    ∀ (l : List String) (c : Nat),
      subsampleLoop n l c = (l.take (n - c), l.drop (n - c)) := by
  intro l
  induction l with
  | nil => intro c; simp [subsampleLoop]
  | cons f rest ih =>
    intro c
    by_cases hc : c < n
    · have h1 : n - c = (n - (c + 1)) + 1 := by omega
      simp only [subsampleLoop, if_pos hc, ih (c + 1), h1, List.take_succ_cons,
        List.drop_succ_cons]
    · have h1 : n - c = 0 := by omega
      simp only [subsampleLoop, if_neg hc, ih c, h1, List.take_zero, List.drop_zero]

/-- `data_subsample` keeps exactly the first `sample_num` files in
traversal order. -/
theorem data_subsample_take (files : List String) (n : Nat) :
    data_subsample files n = files.take n := by
  unfold data_subsample
  rw [subsampleLoop_spec]
  simp

/-- `data_subsample` removes exactly the files after the first
`sample_num`. -/
theorem removedFiles_drop (files : List String) (n : Nat) :
    removedFiles files n = files.drop n := by
  unfold removedFiles
  rw [subsampleLoop_spec]
  simp

/-! The claims. -/

/-- C1: for every index, any Sample that `__getitem__` returns is complete
with respect to the configuration: a requested bbox list is non-empty, a
requested mask list is non-empty, and a requested caption list is
non-empty. -/
theorem claim_C1_returned_sample_complete (ds : MSCOCODataset) (rng : Nat → Nat)
    (fuel k : Nat) (idx : Idx) (s : Sample) (own : Ownership)
    (h : ds.getitemLoop rng fuel k idx = .ok (some (s, own))) : completeFor ds s :=
  getitemLoop_ok_complete ds rng fuel k idx s own h

/-- Witness for C1 at a concrete dataset: index 0 of `dsComplete` returns
`sComplete`, which the theorem shows complete. -/
theorem claim_C1_witness :
    dsComplete.getitemLoop wrng 1 0 (.pos 0) = .ok (some (sComplete, .owned)) ∧
      completeFor dsComplete sComplete :=
  ⟨rfl, claim_C1_returned_sample_complete dsComplete wrng 1 0 (.pos 0) sComplete .owned rfl⟩

/-- C2 counterexample: with bboxes requested, string-key access does NOT
return the plain base record — the completeness check still runs and raises
`KeyError` on the absent `bbox` field. -/
theorem claim_C2_counterexample :
    dsIncomplete.getitemLoop wrng 5 0 (.key "k") = .error (.keyError "bbox") ∧
      dsIncomplete.getitemLoop wrng 5 0 (.key "k") ≠ .ok (some (baseRec2, .aliased)) :=
  ⟨rfl, fun hcontra => Except.noConfusion hcontra⟩

/-- C2 amended: string-key retrieval performs no annotation merge and hands
back the stored base record, but `__getitem__` still runs the completeness
check on it; when no annotation kind is requested the plain record is
returned immediately without retrying, while a requested kind makes the
access raise a missing-key error (on `bbox` when bboxes are requested, on
`caption` when only captions are). -/
theorem claim_C2_amended (ds : MSCOCODataset) (s : String) (j : Nat) (r : Sample)
    (hk : List.lookup s ds.keyIndex = some j) (hr : ds.records.get? j = some r)
    (hb : r.bbox = none) (hm : r.mask = none) (hc : r.caption = none) :
    (ds.include_bboxes = false → ds.include_masks = false → ds.captions = none →
      ∀ (rng : Nat → Nat) (fuel k : Nat),
        ds.getitemLoop rng (fuel + 1) k (.key s) = .ok (some (r, .aliased))) ∧
    (ds.include_bboxes = true →
      ∀ (rng : Nat → Nat) (fuel k : Nat),
        ds.getitemLoop rng (fuel + 1) k (.key s) = .error (.keyError "bbox")) ∧
    (ds.include_bboxes = false → ds.include_masks = false → ds.captions.isSome = true →
      ∀ (rng : Nat → Nat) (fuel k : Nat),
        ds.getitemLoop rng (fuel + 1) k (.key s) = .error (.keyError "caption")) := by
  have hgs : ds.getSingleItem (.key s) = .ok (r, .aliased) :=
    getSingleItem_key_spec ds s j r hk hr
  refine ⟨?_, ?_, ?_⟩
  · intro h1 h2 h3 rng fuel k
    have hcc : completenessCheck ds r = .ok true := by
      unfold completenessCheck
      simp [checkKind, h1, h2, h3]
    rw [getitemLoop_succ, hgs]
    dsimp only
    rw [hcc]
    simp
  · intro h1 rng fuel k
    have hcc : completenessCheck ds r = .error (.keyError "bbox") := by
      unfold completenessCheck
      simp [checkKind, h1, hb]
    rw [getitemLoop_succ, hgs]
    dsimp only
    rw [hcc]
  · intro h1 h2 h3 rng fuel k
    have hcc : completenessCheck ds r = .error (.keyError "caption") := by
      unfold completenessCheck
      simp [checkKind, h1, h2, h3, hc]
    rw [getitemLoop_succ, hgs]
    dsimp only
    rw [hcc]

/-- Witness for the amended C2: on a dataset requesting nothing, the string
key returns the plain stored record in one iteration. -/
theorem claim_C2_witness :
    dsPlain.getitemLoop wrng 3 0 (.key "k") = .ok (some (baseRec2, .aliased)) :=
  (claim_C2_amended dsPlain "k" 0 baseRec2 rfl rfl rfl rfl rfl).1 rfl rfl rfl wrng 2 0

/-- C3: any returned sample is complete (terminates only on success); on an
incomplete fetch the loop restarts at the freshly drawn index
`rng k % len`, which lies in `[0, len)`; and when every index fetches an
incomplete sample the loop never returns, whatever the fuel. -/
theorem claim_C3_retry_loop (ds : MSCOCODataset) (rng : Nat → Nat) :
    (∀ (fuel k : Nat) (idx : Idx) (s : Sample) (own : Ownership),
        ds.getitemLoop rng fuel k idx = .ok (some (s, own)) → completeFor ds s) ∧
    (∀ (fuel k : Nat) (idx : Idx) (r : Sample) (own : Ownership),
        ds.getSingleItem idx = .ok (r, own) →
        completenessCheck ds r = .ok false →
        ds.getitemLoop rng (fuel + 1) k idx =
          ds.getitemLoop rng fuel (k + 1) (.pos (rng k % ds.len)) ∧
        (0 < ds.len → rng k % ds.len < ds.len)) ∧
    (∀ i, i < ds.len → (∀ j, j < ds.len → incompleteFetch ds j) →
        ∀ (fuel k : Nat), ds.getitemLoop rng fuel k (.pos i) = .ok none) := by
  refine ⟨getitemLoop_ok_complete ds rng, ?_, ?_⟩
  · intro fuel k idx r own hg hc
    constructor
    · rw [getitemLoop_succ, hg]
      dsimp only
      rw [hc]
      simp
    · intro h0
      exact Nat.mod_lt _ h0
  · intro i hi hall fuel k
    exact getitemLoop_stuck ds rng (Nat.lt_of_le_of_lt (Nat.zero_le i) hi) hall fuel k i hi

/-- Witness for C3: on `dsIncomplete`, where the only image has no
annotations, the loop is still running after 7 iterations. -/
theorem claim_C3_witness :
    dsIncomplete.getitemLoop wrng 7 0 (.pos 0) = .ok none :=
  (claim_C3_retry_loop dsIncomplete wrng).2.2 0 (by decide)
    (fun j hj => by
      have hlen : dsIncomplete.len = 1 := rfl
      rw [hlen] at hj
      have hj0 : j = 0 := by omega
      subst hj0
      exact ⟨⟨"000002.jpg", some 2, some [], none, none⟩, .owned, rfl, rfl⟩)
    7 0

/-- C4: with bboxes requested, integer access yields a sample whose `bbox`
is the ordered tuple list of the non-crowd instance annotations of the
image; with masks also requested, `mask` is the parallel mask list of the
same length; with no annotations found, both lists are present and
empty. -/
theorem claim_C4_instance_population (ds : MSCOCODataset) (i : Nat) (r : Sample) (iid : Int)
    (hbb : ds.include_bboxes = true)
    (hr : ds.records.get? i = some r)
    (hp : parseImageId r.image = some iid) :
    ∃ s own, ds.getSingleItem (.pos i) = .ok (s, own) ∧
      s.bbox = some ((ds.instances.nonCrowd iid).map annTuple) ∧
      (ds.include_masks = true →
        s.mask = some ((ds.instances.nonCrowd iid).map ds.instances.annToMask) ∧
        ((ds.instances.nonCrowd iid).map ds.instances.annToMask).length =
          ((ds.instances.nonCrowd iid).map annTuple).length) ∧
      (ds.instances.nonCrowd iid = [] →
        s.bbox = some [] ∧ (ds.include_masks = true → s.mask = some [])) := by
  obtain ⟨s, heq, _, _, hbox, _, _, _⟩ := getSingleItem_pos_spec ds i r iid hr hp
  obtain ⟨g1, g2, _⟩ := hbox hbb
  refine ⟨s, .owned, heq, g1, ?_, ?_⟩
  · intro hmk
    exact ⟨g2 hmk, by simp⟩
  · intro hnil
    refine ⟨by rw [g1, hnil]; rfl, ?_⟩
    intro hmk
    rw [g2 hmk, hnil]
    rfl

/-- Witness for C4 at `dsComplete`, image id 1. -/
theorem claim_C4_witness :
    ∃ s own, dsComplete.getSingleItem (.pos 0) = .ok (s, own) ∧
      s.bbox = some ((dsComplete.instances.nonCrowd 1).map annTuple) ∧
      (dsComplete.include_masks = true →
        s.mask = some ((dsComplete.instances.nonCrowd 1).map dsComplete.instances.annToMask) ∧
        ((dsComplete.instances.nonCrowd 1).map dsComplete.instances.annToMask).length =
          ((dsComplete.instances.nonCrowd 1).map annTuple).length) ∧
      (dsComplete.instances.nonCrowd 1 = [] →
        s.bbox = some [] ∧ (dsComplete.include_masks = true → s.mask = some [])) :=
  claim_C4_instance_population dsComplete 0 baseRec1 1 rfl rfl rfl

/-- C5: `data_subsample` keeps exactly the first `sample_num` files in
traversal order and removes the rest, so `min sample_num count` files
remain, zero when `sample_num = 0`, and a dataset constructed over the
subsampled directory has that length. -/
theorem claim_C5_subsample (files : List String) (n : Nat) :
    data_subsample files n = files.take n ∧
    removedFiles files n = files.drop n ∧
    (data_subsample files n).length = min n files.length ∧
    data_subsample files 0 = [] ∧
    (∀ (ki : List (String × Nat)) (instFile : Except String COCOInstances)
        (capFile : Except String COCOCaptions) (bb mk cp : Bool)
        (ds : MSCOCODataset) (log : List SourceTag),
      MSCOCODataset.init (data_subsample files n) ki instFile capFile bb mk cp =
          .ok (ds, log) →
      ds.len = min n files.length) := by
  refine ⟨data_subsample_take files n, removedFiles_drop files n, ?_, ?_, ?_⟩
  · rw [data_subsample_take, List.length_take]
  · rw [data_subsample_take]
    simp
  · intro ki instFile capFile bb mk cp ds log h
    obtain ⟨_, hrec, _⟩ := init_ok_spec _ _ _ _ _ _ _ _ _ h
    unfold MSCOCODataset.len
    rw [hrec, List.length_map, data_subsample_take, List.length_take]

/-- Witness for C5: three files subsampled to 2 give a dataset of length
`min 2 3`, and subsampling to 0 empties the directory. -/
theorem claim_C5_witness :
    ds5w.len = min 2 w5files.length ∧ data_subsample w5files 0 = [] :=
  ⟨(claim_C5_subsample w5files 2).2.2.2.2 [] (.ok wInstEmpty) (.ok wCapsEmpty)
      true false false ds5w [SourceTag.instancesSrc] rfl,
   (claim_C5_subsample w5files 0).2.2.2.1⟩

/-- C6 counterexample: with `include_captions = False` construction opens
only the instance source — the caption source is never opened, refuting
"opens and indexes both annotation sources for every configuration". -/
theorem claim_C6_counterexample :
    MSCOCODataset.init ["000001.jpg"] [] (.ok wInstEmpty) (.ok wCapsEmpty)
        true false false = .ok (ds6w, [SourceTag.instancesSrc]) ∧
      SourceTag.captionsSrc ∉ [SourceTag.instancesSrc] :=
  ⟨rfl, by simp⟩

/-- C6 amended: construction opens and indexes the instance source exactly
once for every successful configuration, and the caption source exactly
once when `include_captions` is set and not at all otherwise; a failing
open propagates as a fatal load error. -/
theorem claim_C6_amended :
    (∀ (files : List String) (ki : List (String × Nat))
        (instFile : Except String COCOInstances) (capFile : Except String COCOCaptions)
        (bb mk cp : Bool) (ds : MSCOCODataset) (log : List SourceTag),
      MSCOCODataset.init files ki instFile capFile bb mk cp = .ok (ds, log) →
        log = (if cp = true then [SourceTag.instancesSrc, SourceTag.captionsSrc]
               else [SourceTag.instancesSrc]) ∧
        log.count SourceTag.instancesSrc = 1 ∧
        log.count SourceTag.captionsSrc = (if cp = true then 1 else 0)) ∧
    (∀ (files : List String) (ki : List (String × Nat)) (e : String)
        (capFile : Except String COCOCaptions) (bb mk cp : Bool),
      (mk = true → bb = true) →
      MSCOCODataset.init files ki (.error e) capFile bb mk cp = .error (.loadError e)) ∧
    (∀ (files : List String) (ki : List (String × Nat)) (inst : COCOInstances)
        (e : String) (bb mk : Bool),
      (mk = true → bb = true) →
      MSCOCODataset.init files ki (.ok inst) (.error e) bb mk true =
        .error (.loadError e)) := by
  refine ⟨?_, ?_, ?_⟩
  · intro files ki instFile capFile bb mk cp ds log h
    obtain ⟨_, _, _, _, _, _, hcase⟩ := init_ok_spec _ _ _ _ _ _ _ _ _ h
    rcases hcase with ⟨hcp, _, hlog⟩ | ⟨hcp, _, hlog⟩
    · subst hcp
      subst hlog
      exact ⟨by simp, by decide, by decide⟩
    · subst hcp
      subst hlog
      exact ⟨by simp, by decide, by decide⟩
  · intro files ki e capFile bb mk cp hmb
    have hcond : (mk && !bb) = false := by
      cases mk
      · simp
      · simp [hmb rfl]
    unfold MSCOCODataset.init
    rw [if_neg (by simp [hcond])]
  · intro files ki inst e bb mk hmb
    have hcond : (mk && !bb) = false := by
      cases mk
      · simp
      · simp [hmb rfl]
    unfold MSCOCODataset.init
    rw [if_neg (by simp [hcond])]
    rfl

/-- Witness for the amended C6 at a caption-free configuration. -/
theorem claim_C6_witness :
    [SourceTag.instancesSrc] =
        (if false = true then [SourceTag.instancesSrc, SourceTag.captionsSrc]
         else [SourceTag.instancesSrc]) ∧
      [SourceTag.instancesSrc].count SourceTag.instancesSrc = 1 ∧
      [SourceTag.instancesSrc].count SourceTag.captionsSrc =
        (if false = true then 1 else 0) :=
  claim_C6_amended.1 ["000001.jpg"] [] (.ok wInstEmpty) (.ok wCapsEmpty)
    true false false ds6w [SourceTag.instancesSrc] rfl

/-- C7: requesting masks without bboxes fails at construction time with the
configuration error, for every input; and whenever masks imply bboxes the
construction never raises a configuration error. -/
theorem claim_C7_mask_requires_bbox :
    (∀ (files : List String) (ki : List (String × Nat))
        (instFile : Except String COCOInstances) (capFile : Except String COCOCaptions)
        (bb cp : Bool), bb = false →
      MSCOCODataset.init files ki instFile capFile bb true cp =
        .error (.configError "must include bboxes with mask data")) ∧
    (∀ (files : List String) (ki : List (String × Nat))
        (instFile : Except String COCOInstances) (capFile : Except String COCOCaptions)
        (bb mk cp : Bool) (msg : String), (mk = true → bb = true) →
      MSCOCODataset.init files ki instFile capFile bb mk cp ≠
        .error (.configError msg)) := by
  constructor
  · intro files ki instFile capFile bb cp hbb
    subst hbb
    rfl
  · intro files ki instFile capFile bb mk cp msg hmb hcontra
    have hcond : (mk && !bb) = false := by
      cases mk
      · simp
      · simp [hmb rfl]
    unfold MSCOCODataset.init at hcontra
    rw [if_neg (by simp [hcond])] at hcontra
    cases instFile with
    | error e => exact absurd hcontra (by simp)
    | ok inst =>
      dsimp only at hcontra
      cases cp with
      | false => simp at hcontra
      | true =>
        simp only [if_true] at hcontra
        cases capFile with
        | error e => exact absurd hcontra (by simp)
        | ok caps => exact absurd hcontra (by simp)

/-- Witness for C7: masks without bboxes is rejected at construction. -/
theorem claim_C7_witness :
    MSCOCODataset.init ["x.jpg"] [] (.ok wInstEmpty) (.ok wCapsEmpty) false true false =
      .error (.configError "must include bboxes with mask data") :=
  claim_C7_mask_requires_bbox.1 ["x.jpg"] [] (.ok wInstEmpty) (.ok wCapsEmpty)
    false false rfl

/-- C8: for every sample produced by integer access, the integer parsed
from the filename stem of its `image` path equals its `image_id` field
(which is present). -/
theorem claim_C8_image_id_roundtrip (ds : MSCOCODataset) (i : Nat) (s : Sample)
    (own : Ownership) (h : ds.getSingleItem (.pos i) = .ok (s, own)) :
    s.image_id.isSome = true ∧ parseImageId s.image = s.image_id := by
  cases hr : ds.records.get? i with
  | none =>
    rw [getSingleItem_pos_oob ds i hr] at h
    exact absurd h (by simp)
  | some r =>
    cases hp : parseImageId r.image with
    | none =>
      have hfail := getSingleItem_pos_parse_fail ds i r hr hp
      rw [hfail] at h
      exact absurd h (by simp)
    | some iid =>
      obtain ⟨s', heq, himg, hid, _, _, _, _⟩ := getSingleItem_pos_spec ds i r iid hr hp
      rw [heq] at h
      injection h with h'
      injection h' with h1 h2
      subst h1
      constructor
      · rw [hid]
        rfl
      · rw [himg, hid, hp]

/-- Witness for C8 at `dsComplete`. -/
theorem claim_C8_witness :
    dsComplete.getSingleItem (.pos 0) = .ok (sComplete, .owned) ∧
      (sComplete.image_id.isSome = true ∧
        parseImageId sComplete.image = sComplete.image_id) :=
  ⟨rfl, claim_C8_image_id_roundtrip dsComplete 0 sComplete .owned rfl⟩

/-- C9: an integer access whose base record has a non-integer filename stem
fails with the parse error, which the retry loop propagates unrecovered;
a valid integer stem never produces that error. -/
theorem claim_C9_parse_error (ds : MSCOCODataset) (i : Nat) (r : Sample)
    (hr : ds.records.get? i = some r) :
    (parseImageId r.image = none →
      ds.getSingleItem (.pos i) = .error .parseError ∧
      ∀ (rng : Nat → Nat) (fuel k : Nat),
        ds.getitemLoop rng (fuel + 1) k (.pos i) = .error .parseError) ∧
    (∀ v, parseImageId r.image = some v →
      ∃ s own, ds.getSingleItem (.pos i) = .ok (s, own)) := by
  constructor
  · intro hp
    have hfail := getSingleItem_pos_parse_fail ds i r hr hp
    refine ⟨hfail, ?_⟩
    intro rng fuel k
    rw [getitemLoop_succ, hfail]
  · intro v hp
    obtain ⟨s, heq, _⟩ := getSingleItem_pos_spec ds i r v hr hp
    exact ⟨s, .owned, heq⟩

/-- Witness for C9: the file `abc.jpg` makes both the single fetch and the
whole access fail with the parse error. -/
theorem claim_C9_witness :
    dsBad.getSingleItem (.pos 0) = .error .parseError ∧
      dsBad.getitemLoop wrng 3 0 (.pos 0) = .error .parseError :=
  ⟨((claim_C9_parse_error dsBad 0 baseRecBad rfl).1 rfl).1,
   ((claim_C9_parse_error dsBad 0 baseRecBad rfl).1 rfl).2 wrng 2 0⟩

/-- C10 counterexample: a string-key access returns the stored base record
itself, an aliased value, refuting "every produced Sample is independently
owned". -/
theorem claim_C10_counterexample :
    dsIncomplete.getSingleItem (.key "k") = .ok (baseRec2, .aliased) ∧
      Ownership.aliased ≠ Ownership.owned :=
  ⟨rfl, by simp⟩

/-- C10 amended: integer-index accesses operate on a deep copy, so every
integer-indexed Sample is independently owned and base storage is never
mutated; string-key accesses return the stored base record itself without
copying — content unmodified, but the value aliases base storage. -/
theorem claim_C10_amended :
    (∀ (ds : MSCOCODataset) (i : Nat) (s : Sample) (own : Ownership),
      ds.getSingleItem (.pos i) = .ok (s, own) → own = .owned) ∧
    (∀ (ds : MSCOCODataset) (key : String) (s : Sample) (own : Ownership),
      ds.getSingleItem (.key key) = .ok (s, own) →
        own = .aliased ∧
        ∃ j, List.lookup key ds.keyIndex = some j ∧ ds.records.get? j = some s) := by
  constructor
  · intro ds i s own h
    cases hr : ds.records.get? i with
    | none =>
      rw [getSingleItem_pos_oob ds i hr] at h
      exact absurd h (by simp)
    | some r =>
      cases hp : parseImageId r.image with
      | none =>
        have hfail := getSingleItem_pos_parse_fail ds i r hr hp
        rw [hfail] at h
        exact absurd h (by simp)
      | some iid =>
        obtain ⟨s', heq, _⟩ := getSingleItem_pos_spec ds i r iid hr hp
        rw [heq] at h
        injection h with h'
        injection h' with h1 h2
        exact h2.symm
  · intro ds key s own h
    cases hk : List.lookup key ds.keyIndex with
    | none =>
      rw [getSingleItem_key_noKey ds key hk] at h
      exact absurd h (by simp)
    | some j =>
      cases hr : ds.records.get? j with
      | none =>
        rw [getSingleItem_key_oob ds key j hk hr] at h
        exact absurd h (by simp)
      | some r =>
        have hks := getSingleItem_key_spec ds key j r hk hr
        rw [hks] at h
        injection h with h'
        injection h' with h1 h2
        subst h1
        exact ⟨h2.symm, j, rfl, hr⟩

/-- Witness for the amended C10: the string-key access on `dsIncomplete`
returns the aliased stored record. -/
theorem claim_C10_witness :
    Ownership.aliased = Ownership.aliased ∧
      ∃ j, List.lookup "k" dsIncomplete.keyIndex = some j ∧
        dsIncomplete.records.get? j = some baseRec2 :=
  claim_C10_amended.2 dsIncomplete "k" baseRec2 .aliased rfl
